import Mathlib

/-!
Verification development for the exam build script (build_exam.py).

The script renders a JSON exam/school/task model into a LaTeX document.
We shallowly embed the rendering pipeline: JSON dictionaries become
structures with optional fields, the filesystem becomes a boolean
predicate on path strings, Python floats become exact rationals, and
functions that can raise become Except-valued functions.  All literal
strings are transcribed from the source (braces written with hex
escapes).
-/

namespace BuildExam

/-- Models CPython str() of a float holding an exact integral value: the
decimal point and a trailing zero are appended, as in str(13.0) = "13.0"
(build_exam.py interpolates floats via f-strings at lines 213 and 353).
Every theorem below evaluates this function only on integral values,
where the model is exact; the fallback branch for non-integral rationals
prints the rational itself and is never relied upon. -/
def pyFloatStr (q : ℚ) : String :=
  if q.den = 1 then toString q.num ++ ".0" else toString q

/-- Replacement of every CRLF pair by LF on a character list, scanning
left to right as Python str.replace does. -/
def normNewlines : List Char → List Char
  | [] => []
  | '\r' :: '\n' :: rest => '\n' :: normNewlines rest
  | c :: rest => c :: normNewlines rest

/-- Embedding of tex_escape_minimal (build_exam.py lines 58-64): only
Windows newlines are normalized, nothing is escaped.  Implemented on the
character list so that it evaluates by kernel reduction. -/
def tex_escape_minimal (s : String) : String :=
  ⟨normNewlines s.data⟩

/-- ASCII whitespace test matching the characters Python str.strip
removes in the strings this program handles. -/
def isSpaceChar (c : Char) : Bool :=
  c == ' ' || c == '\t' || c == '\n' || c == '\r'

/-- Embedding of Python str.strip: leading and trailing whitespace
removed.  Implemented on the character list so that it evaluates by
kernel reduction. -/
def pyStrip (s : String) : String :=
  ⟨((s.data.dropWhile isSpaceChar).reverse.dropWhile isSpaceChar).reverse⟩

/-- Embedding of Python str.join: pyJoin sep [a, b, c] = a ++ sep ++ b ++ sep ++ c. -/
def pyJoin (sep : String) : List String → String
  | [] => ""
  | [s] => s
  | s :: rest => s ++ sep ++ pyJoin sep rest

/-- Models PosixPath.is_absolute: the path string starts with a slash. -/
def isAbsolute (p : String) : Bool :=
  match p.data with
  | [] => false
  | c :: _ => c == '/'

/-- Models pathlib joining with the / operator for a relative right
operand, which is the only way it is used in the script. -/
def joinPath (a b : String) : String :=
  a ++ "/" ++ b

/-- Embedding of resolve_asset_path (build_exam.py lines 42-56).  The
filesystem is abstracted as the boolean predicate fsEx on path strings. -/
def resolve_asset_path (fsEx : String → Bool) (project_root base_dir p : String) : String :=
  if isAbsolute p then p
  else if fsEx (joinPath project_root p) then joinPath project_root p
  else joinPath base_dir p

/-- Asset descriptor dictionary of a task (role, path, width, caption keys). -/
structure Asset where
  role : Option String := none
  path : String := ""
  width : Option String := none
  caption : Option String := none
deriving Repr, DecidableEq

/-- Workspace block dictionary.  The renderer (build_exam.py lines
183-204) reads only the keys type, lines, height_cm and box_title; a
block may carry further keys, such as the grid-spacing selector the spec
describes, which we model by the field spacing.  Required keys are
Option-valued so that a missing key can be modelled (a missing required
key raises KeyError in Python, embedded as an error value). -/
structure WorkspaceBlock where
  type : String := ""
  lines : Option Int := none
  height_cm : Option ℚ := none
  box_title : Option String := none
  spacing : Option String := none
deriving Repr, DecidableEq

/-- Part dictionary of a task (text plus nested workspace blocks). -/
structure Part where
  text : String := ""
  workspace : List WorkspaceBlock := []
deriving Repr, DecidableEq

/-- Render configuration dictionary of a task (mode, page_break_before). -/
structure RenderCfg where
  mode : Option String := none
  page_break_before : Bool := false
deriving Repr, DecidableEq

/-- Task document (task.json) as loaded per reference. -/
structure Task where
  id : String := ""
  name : String := ""
  points : ℚ := 0
  statement : String := ""
  render : Option RenderCfg := none
  assets : List Asset := []
  parts : List Part := []
  workspace : List WorkspaceBlock := []
deriving Repr, DecidableEq

/-- Task reference inside an exam document. -/
structure TaskRef where
  id : String := ""
  points_override : Option ℚ := none
  page_break_before : Bool := false
deriving Repr, DecidableEq

/-- School header field dictionary (key, label, kind, options). -/
structure HeaderField where
  key : Option String := none
  label : Option String := none
  kind : Option String := none
  options : List String := []
deriving Repr, DecidableEq

/-- School document (logo path and header fields). -/
structure School where
  logo : String := ""
  header_fields : List HeaderField := []
deriving Repr, DecidableEq

/-- Exam document.  The source also reads the class key (line 112) into a
variable that is never used afterwards; we keep the field for fidelity. -/
structure Exam where
  id : String := ""
  title : String := ""
  subject : String := ""
  classLabel : String := ""
  date : String := ""
  school_id : String := ""
  tasks : List TaskRef := []
deriving Repr, DecidableEq

/-- Literal rendered for one ruled line (build_exam.py line 188). -/
def lfLine : String := "\\linefield\x7b16cm\x7d\\\\[6pt]"

/-- Embedding of render_workspace_block (build_exam.py lines 183-204).
The box branch of the source is a raw f-string, so its trailing
backslash-n stays a two-character literal rather than a newline; we
transcribe that faithfully.  Heights pass through float() and are
interpolated, modelled by pyFloatStr. -/
def render_workspace_block (block : WorkspaceBlock) : Except String String :=
  if block.type = "lines" then
    match block.lines with
    | none => .error "KeyError: lines"
    | some n => .ok (pyJoin "\n" (List.replicate n.toNat lfLine) ++ "\n")
  else if block.type = "blank" then
    match block.height_cm with
    | none => .error "KeyError: height_cm"
    | some h => .ok ("\\vspace\x7b" ++ pyFloatStr h ++ "cm\x7d" ++ "\n")
  else if block.type = "box" then
    match block.height_cm with
    | none => .error "KeyError: height_cm"
    | some h =>
      let title := tex_escape_minimal (block.box_title.getD "")
      if title = "" then
        .ok ("\\fbox\x7b\\parbox[t][" ++ pyFloatStr h ++ "cm][t]\x7b\\linewidth\x7d\x7b\x7d\x7d\\n")
      else
        .ok ("\\textbf\x7b" ++ title ++ "\x7d\\par\\vspace\x7b2pt\x7d\\fbox\x7b\\parbox[t][" ++
          pyFloatStr h ++ "cm][t]\x7b\\linewidth\x7d\x7b\x7d\x7d\\n")
  else if block.type = "grid" ∨ block.type = "coord" then
    .ok ("\\vspace\x7b" ++ pyFloatStr (block.height_cm.getD 6) ++ "cm\x7d" ++ "\n")
  else
    .ok ""

/-- Task heading literal (build_exam.py line 213); the name argument is
already newline-normalized by the caller and the points value is a
Python float there. -/
def headingStr (i : Nat) (name : String) (pts : ℚ) : String :=
  "\\tasktitle\x7bAufgabe " ++ toString i ++ ": " ++ name ++ "\x7d\x7b" ++ pyFloatStr pts ++ "\x7d"

/-- Centered image literal (build_exam.py lines 237 and 253). -/
def centerImage (width p : String) : String :=
  "\\begin\x7bcenter\x7d\\includegraphics[width=" ++ width ++ "]\x7b" ++ p ++ "\x7d\\end\x7bcenter\x7d"

/-- Render mode of a task (build_exam.py line 210): mode key of the
render dictionary, defaulting to text when the dictionary or the key is
absent. -/
def renderMode (task : Task) : String :=
  match task.render with
  | some r => r.mode.getD "text"
  | none => "text"

/-- Layout asset selection (build_exam.py lines 221-227): the first asset
whose role is layout, else the first asset of a non-empty list. -/
def usedLayoutAsset (task : Task) : Option Asset :=
  match task.assets.find? (fun a => a.role == some "layout") with
  | some a => some a
  | none => task.assets.head?

/-- Embedding of the figure-asset loop of render_task (build_exam.py
lines 242-253): every asset whose role defaults to figure is resolved,
checked for existence and rendered captioned or bare.  An empty caption
string is falsy in Python and renders the bare image. -/
def renderFigures (fsEx : String → Bool) (project_root task_dir : String) :
    List Asset → Except String (List String)
  | [] => .ok []
  | a :: rest =>
    if a.role.getD "figure" = "figure" then
      let p := resolve_asset_path fsEx project_root task_dir a.path
      if fsEx p then
        let width := a.width.getD "0.8\\linewidth"
        let cap := a.caption.getD ""
        let s :=
          if cap = "" then centerImage width p
          else "\\begin\x7bfigure\x7d[H]\\centering\\includegraphics[width=" ++ width ++
            "]\x7b" ++ p ++ "\x7d\\caption\x7b" ++ tex_escape_minimal cap ++ "\x7d\\end\x7bfigure\x7d"
        match renderFigures fsEx project_root task_dir rest with
        | .error e => .error e
        | .ok tail => .ok (s :: tail)
      else .error ("Task figure asset not found: " ++ p)
    else renderFigures fsEx project_root task_dir rest

/-- Embedding of the workspace-block loops of render_task (build_exam.py
lines 262-263 and 267-268): each block renders in order; a raised
KeyError aborts. -/
def renderBlocks : List WorkspaceBlock → Except String (List String)
  | [] => .ok []
  | wb :: rest =>
    match render_workspace_block wb with
    | .error e => .error e
    | .ok s =>
      match renderBlocks rest with
      | .error e => .error e
      | .ok tail => .ok (s :: tail)

/-- Embedding of the per-part item loop (build_exam.py lines 259-263). -/
def renderPartsItems : List Part → Except String (List String)
  | [] => .ok []
  | part :: rest =>
    match renderBlocks part.workspace with
    | .error e => .error e
    | .ok bs =>
      match renderPartsItems rest with
      | .error e => .error e
      | .ok tail => .ok (("\\item " ++ tex_escape_minimal part.text) :: (bs ++ tail))

/-- Embedding of the parts block of render_task (build_exam.py lines
256-264): nothing is emitted for an empty part list, otherwise the
enumerate environment wraps the items. -/
def renderParts (parts : List Part) : Except String (List String)  :=
  match parts with
  | [] => .ok []
  | _ :: _ =>
    match renderPartsItems parts with
    | .error e => .error e
    | .ok items => .ok ("\\begin\x7benumerate\x7d[label=\\alph*)]" :: (items ++ ["\\end\x7benumerate\x7d"]))

/-- Embedding of render_task as the list of fragments appended to the
out list (build_exam.py lines 206-271); the function render_task below
joins them with newlines exactly as the source does in both exit paths. -/
def render_task_items (fsEx : String → Bool) (project_root task_dir : String)
    (task : Task) (i : Nat) : Except String (List String) :=
  if renderMode task = "layout" then
    match usedLayoutAsset task with
    | none => .error ("Task " ++ task.id ++ " is render.mode=layout but has no assets.")
    | some a =>
      if fsEx (resolve_asset_path fsEx project_root task_dir a.path) then
        .ok [headingStr i (tex_escape_minimal task.name) task.points,
          tex_escape_minimal task.statement ++ "\n",
          centerImage (a.width.getD "\\linewidth") (resolve_asset_path fsEx project_root task_dir a.path),
          "\n"]
      else .error ("Task layout asset not found: " ++ resolve_asset_path fsEx project_root task_dir a.path)
  else
    match renderFigures fsEx project_root task_dir task.assets with
    | .error e => .error e
    | .ok figs =>
      match renderParts task.parts with
      | .error e => .error e
      | .ok partRows =>
        match renderBlocks task.workspace with
        | .error e => .error e
        | .ok ws =>
          .ok ([headingStr i (tex_escape_minimal task.name) task.points,
            tex_escape_minimal task.statement ++ "\n"] ++
            figs ++ partRows ++ ws ++ ["\\vspace\x7b6pt\x7d\\hrule\\vspace\x7b6pt\x7d"])

/-- Embedding of render_task (build_exam.py lines 206-271). -/
def render_task (fsEx : String → Bool) (project_root task_dir : String)
    (task : Task) (i : Nat) : Except String String :=
  match render_task_items fsEx project_root task_dir task i with
  | .error e => .error e
  | .ok items => .ok (pyJoin "\n" items)

/-- Fixed first header row (build_exam.py line 128): title, subject and
date, already newline-normalized. -/
def fixedRow (exam : Exam) : String :=
  "\\textbf\x7b" ++ tex_escape_minimal exam.title ++ "\x7d & Fach: " ++
    tex_escape_minimal exam.subject ++ " & Datum: " ++ tex_escape_minimal exam.date ++
    " \\\\ \\hline"

/-- Lookup of a header field by its key (build_exam.py lines 132-136). -/
def findField (fields : List HeaderField) (k : String) : Option HeaderField :=
  fields.find? (fun f => f.key == some k)

/-- Label of an optional header field (build_exam.py lines 143-145): the
language-specific default when the field is absent, otherwise the label
key of the field, whose absence raises KeyError. -/
def fieldLabel (f : Option HeaderField) (dflt : String) : Except String String :=
  match f with
  | none => .ok dflt
  | some g =>
    match g.label with
    | some l => .ok l
    | none => .error "KeyError: label"

/-- Second header row literal (build_exam.py lines 146-148). -/
def secondRowStr (sl cl nl : String) : String :=
  sl ++ ": \\linefield\x7b7cm\x7d & " ++ cl ++ ": \\linefield\x7b3cm\x7d & " ++ nl ++
    ": \\linefield\x7b3cm\x7d \\\\ \\hline"

/-- Full-width row for a remaining text_line field (build_exam.py lines
150-155); the label falls back to the key and then to the empty string. -/
def textLineRow (f : HeaderField) : String :=
  "\\multicolumn\x7b3\x7d\x7b|l|\x7d\x7b" ++ tex_escape_minimal (f.label.getD (f.key.getD "")) ++
    ": \\linefield\x7b12cm\x7d\x7d \\\\ \\hline"

/-- Full-width row for a checkbox_group field (build_exam.py lines
157-167): the label prefixes the options only when non-blank after
stripping, and each option is followed by a checkbox glyph. -/
def checkboxRow (f : HeaderField) : String :=
  let label := tex_escape_minimal (f.label.getD "")
  let pre := if pyStrip label = "" then "" else label ++ " "
  let boxes := pyJoin " \\quad " (f.options.map (fun o => tex_escape_minimal o ++ " \\checkbox"))
  "\\multicolumn\x7b3\x7d\x7b|l|\x7d\x7b" ++ pre ++ boxes ++ "\x7d \\\\ \\hline"

/-- Whether one of the three named keys is declared among the header
fields (the condition of build_exam.py line 142). -/
def secondRowWanted (fields : List HeaderField) : Bool :=
  (findField fields "student_name").isSome || (findField fields "class").isSome ||
    (findField fields "note").isSome

/-- Optional second header row (build_exam.py lines 142-148): present
exactly when one of the three named keys is declared, its three labels
coming from the declared fields or the language-specific defaults. -/
def secondRowOf (fields : List HeaderField) : Except String (List String) :=
  if secondRowWanted fields then
    match fieldLabel (findField fields "student_name") "Name" with
    | .error e => .error e
    | .ok sl =>
      match fieldLabel (findField fields "class") "Klasse" with
      | .error e => .error e
      | .ok cl =>
        match fieldLabel (findField fields "note") "Nr./Note" with
        | .error e => .error e
        | .ok nl => .ok [secondRowStr sl cl nl]
  else .ok []

/-- Remaining text_line rows (build_exam.py lines 150-155). -/
def extraRowsOf (fields : List HeaderField) : List String :=
  (fields.filter (fun f => f.kind == some "text_line" &&
    !(f.key == some "student_name" || f.key == some "class" || f.key == some "note"))).map textLineRow

/-- Checkbox-group rows (build_exam.py lines 157-167). -/
def checkboxRowsOf (fields : List HeaderField) : List String :=
  (fields.filter (fun f => f.kind == some "checkbox_group")).map checkboxRow

/-- Row list of the inline header table (build_exam.py lines 125-167):
the fixed row, then the optional second row, then the remaining
text_line rows, then the checkbox_group rows. -/
def header_rows (exam : Exam) (school : School) : Except String (List String) :=
  match secondRowOf school.header_fields with
  | .error e => .error e
  | .ok row1 =>
    .ok ([fixedRow exam] ++ row1 ++ extraRowsOf school.header_fields ++
      checkboxRowsOf school.header_fields)

/-- Header template string (build_exam.py lines 169-181) with the rows
joined by newline plus four spaces, after lstrip of the leading newline. -/
def headerString (logo : String) (rows : List String) : String :=
  "\\begin\x7btabular\x7d\x7bp\x7b0.22\\textwidth\x7d p\x7b0.76\\textwidth\x7d\x7d\n  \\includegraphics[width=\\linewidth]\x7b" ++
    logo ++ "\x7d &\n  \\renewcommand\x7b\\arraystretch\x7d\x7b1.3\x7d\n  \\begin\x7btabular\x7d\x7b|p\x7b0.40\\textwidth\x7d|p\x7b0.25\\textwidth\x7d|p\x7b0.25\\textwidth\x7d|\x7d\n    \\hline\n    " ++
    pyJoin "\n    " rows ++
    "\n  \\end\x7btabular\x7d\n\\end\x7btabular\x7d\n\n\\vspace\x7b8pt\x7d\n"

/-- Embedding of render_header (build_exam.py lines 103-181): the logo
is resolved against the project root twice and must exist, then the row
table is substituted into the header template. -/
def render_header (fsEx : String → Bool) (project_root : String)
    (exam : Exam) (school : School) : Except String String :=
  let logo_path := resolve_asset_path fsEx project_root project_root school.logo
  if fsEx logo_path then
    match header_rows exam school with
    | .error e => .error e
    | .ok rows => .ok (headerString logo_path rows)
  else .error ("School logo not found: " ++ logo_path)

/-- Document preamble (build_exam.py lines 71-98) after lstrip. -/
def latex_preamble : String :=
  "\\documentclass[12pt,a4paper]\x7barticle\x7d\n\\usepackage[margin=2cm]\x7bgeometry\x7d\n\\usepackage\x7bgraphicx\x7d\n\\usepackage\x7btabularx\x7d\n\\usepackage\x7barray\x7d\n\\usepackage\x7benumitem\x7d\n\\usepackage\x7bhyperref\x7d\n\\usepackage\x7bfloat\x7d\n\n\\setlength\x7b\\parindent\x7d\x7b0pt\x7d\n\\setlength\x7b\\parskip\x7d\x7b6pt\x7d\n\n% A simple checkbox\n\\newcommand\x7b\\checkbox\x7d\x7b\\(\\square\\)\x7d\n\n% A line field\n\\newcommand\x7b\\linefield\x7d[1]\x7b\\rule\x7b#1\x7d\x7b0.4pt\x7d\x7d\n\n% Task heading\n\\newcommand\x7b\\tasktitle\x7d[2]\x7b\\vspace\x7b6pt\x7d\\textbf\x7b#1\x7d\\hfill /#2\\par\\vspace\x7b4pt\x7d\x7d\n\n\\usepackage\x7bamssymb\x7d\n\\providecommand\x7b\\checkbox\x7d\x7b$\\square$\x7d\n\n\\begin\x7bdocument\x7d\n"

/-- Document closing marker (build_exam.py lines 100-101). -/
def latex_end : String := "\\end\x7bdocument\x7d"

/-- Directory of a referenced task (build_exam.py line 330). -/
def taskDir (project_root id : String) : String :=
  joinPath (joinPath project_root "tasks") id

/-- Task with its point value replaced by the effective value: the
override of the reference when present, else the declared value
(build_exam.py lines 340-345). -/
def withEff (tref : TaskRef) (task : Task) : Task :=
  { task with points := tref.points_override.getD task.points }

/-- Page-break request for a task (build_exam.py line 347): the flag on
the reference or on the render configuration of the task. -/
def pageBreakReq (tref : TaskRef) (task : Task) : Bool :=
  tref.page_break_before ||
    (match task.render with
     | some r => r.page_break_before
     | none => false)

/-- Total-points line emitted at the end of the document (build_exam.py
line 353); the running total is a Python float there. -/
def totalLine (total : ℚ) : String :=
  "\\par\\textbf\x7bGesamtpunkte:\x7d " ++ pyFloatStr total ++ "\\par"

/-- Floor base-two logarithm on Nat, written with an explicit fuel
argument so that it evaluates by kernel reduction; the fuel n suffices
since halving reaches one within n steps. -/
def natLog2F : Nat → Nat → Nat
  | 0, _ => 0
  | fuel + 1, n => if n ≤ 1 then 0 else natLog2F fuel (n / 2) + 1

/-- Floor base-two logarithm on Nat (zero for zero and one). -/
def natLog2 (n : Nat) : Nat := natLog2F n n

/-- Round n divided by two to the power k to the nearest integer, ties
to even: the rounding step of IEEE-754 round-to-nearest-even. -/
def rhalfEven (n : Nat) (k : Nat) : Nat :=
  if k = 0 then n
  else
    let q := n / 2 ^ k
    let r := n % 2 ^ k
    let half := 2 ^ k / 2
    if r < half then q
    else if half < r then q + 1
    else if q % 2 = 0 then q else q + 1

/-- Mantissa and exponent of the IEEE-754 binary64 sum of two rational
operands, the result denoting the value m times two to the e.  The
operands are assumed to be values a Python float can hold exactly, that
is dyadic rationals with at most 53 significant bits in range: JSON
decimals parse to such doubles and the integral point values of this
domain convert exactly under float().  The exact sum is formed by
aligning the two dyadic operands on a common power-of-two denominator,
then rounded to the nearest representable double: 53 significant bits
in the normal range, a fixed ulp of two to the minus 1074 below it
(gradual underflow), ties to even.  Overflow to infinity (magnitude at
least two to the 1024) is outside the modelled range and cannot be
reached by exam point totals. -/
def fadd64core (a b : ℚ) : Int × Int :=
  let ka := natLog2 a.den
  let kb := natLog2 b.den
  let K := max ka kb
  let M : Int := a.num * 2 ^ (K - ka) + b.num * 2 ^ (K - kb)
  if M = 0 then (0, 0)
  else
    let L := natLog2 M.natAbs + 1
    let E : Int := (L : Int) - 1 - (K : Int)
    let t : Int := max (E - 52) (-1074)
    let s : Int := t + (K : Int)
    if s ≤ 0 then (M, -(K : Int))
    else (Int.sign M * (rhalfEven M.natAbs s.toNat : Int), t)

/-- IEEE-754 binary64 addition on rational values, modelling the Python
float addition of build_exam.py line 341 (total_points += pts): the
rounded mantissa and exponent of fadd64core read back as a rational. -/
def fadd64 (a b : ℚ) : ℚ :=
  match fadd64core a b with
  | (m, e) => (m : ℚ) * (2 : ℚ) ^ e

/-- Embedding of the task loop of main (build_exam.py lines 327-350):
tasks load from a store keyed by identifier, the effective points
accumulate left to right into the running float total exactly as
total_points += pts does (line 341, with binary64 addition fadd64), an
optional newpage directive precedes each fragment, and fragments append
in reference order.  The accumulator argument carries the running
total; the result pairs the emitted fragment list with the final
total. -/
def render_tasks_go (fsEx : String → Bool) (project_root : String)
    (store : String → Option Task) :
    List TaskRef → Nat → ℚ → Except String (List String × ℚ)
  | [], _, total => .ok ([], total)
  | tref :: rest, i, total =>
    match store tref.id with
    | none => .error ("Task JSON not found: " ++ joinPath (taskDir project_root tref.id) "task.json")
    | some task =>
      match render_task fsEx project_root (taskDir project_root tref.id) (withEff tref task) i with
      | .error e => .error e
      | .ok frag =>
        match render_tasks_go fsEx project_root store rest (i + 1)
            (fadd64 total (tref.points_override.getD task.points)) with
        | .error e => .error e
        | .ok (tail, subtotal) =>
          .ok ((if pageBreakReq tref (withEff tref task) then ["\\newpage"] else []) ++ frag :: tail,
            subtotal)

/-- Task loop of main started with the zero total of line 327
(total_points = 0.0). -/
def render_tasks (fsEx : String → Bool) (project_root : String)
    (store : String → Option Task) (trefs : List TaskRef) (i : Nat) :
    Except String (List String × ℚ) :=
  render_tasks_go fsEx project_root store trefs i 0

/-- Embedding of the document assembly of main (build_exam.py lines
321-355): preamble, header, task fragments with page breaks, total line
and closing marker, as the list of parts later joined by newlines. -/
def buildDocument (fsEx : String → Bool) (project_root : String)
    (exam : Exam) (school : School) (store : String → Option Task) :
    Except String (List String) :=
  match render_header fsEx project_root exam school with
  | .error e => .error e
  | .ok header =>
    match render_tasks fsEx project_root store exam.tasks 1 with
    | .error e => .error e
    | .ok (out, total) =>
      .ok ([latex_preamble, header] ++ out ++ [totalLine total, latex_end])

/-- Effective point contribution of one task reference under a store
(build_exam.py line 340); zero for an unresolvable reference, which
cannot occur on a successful build. -/
def effPoints (store : String → Option Task) (tref : TaskRef) : ℚ :=
  match store tref.id with
  | some task => tref.points_override.getD task.points
  | none => 0

/-- Character list of the ruled-line directive name, used to observe how
many ruled lines a rendered fragment contains. -/
def lfPat : List Char := "\\linefield".data

/-- Boolean test that the pattern starts the list. -/
def leadsWith : List Char → List Char → Bool
  | [], _ => true
  | _ :: _, [] => false
  | p :: ps, c :: cs => p == c && leadsWith ps cs

/-- Number of occurrences of the pattern in the character list. -/
def occ (pat : List Char) : List Char → Nat
  | [] => 0
  | c :: rest => occ pat rest + (if leadsWith pat (c :: rest) then 1 else 0)

/-- Number of ruled-line directives occurring in a string. -/
def countLinefield (s : String) : Nat :=
  occ lfPat s.data

/-- Decidable equality for Except values, used to evaluate the embedded
renderers on concrete inputs. -/
instance {e a : Type} [DecidableEq e] [DecidableEq a] : DecidableEq (Except e a) :=
  fun x y =>
    match x, y with
    | .ok u, .ok v =>
      match decEq u v with
      | isTrue h => isTrue (by rw [h])
      | isFalse h => isFalse (fun he => h (Except.ok.inj he))
    | .error u, .error v =>
      match decEq u v with
      | isTrue h => isTrue (by rw [h])
      | isFalse h => isFalse (fun he => h (Except.error.inj he))
    | .ok _, .error _ => isFalse (fun he => Except.noConfusion he)
    | .error _, .ok _ => isFalse (fun he => Except.noConfusion he)

/-- Filesystem on which every path exists, for concrete evaluations. -/
def fsAll : String → Bool := fun _ => true

/-- Concrete task with declared value ten, from the point example. -/
def taskA : Task := { id := "t1", name := "A", points := 10 }

/-- Concrete task with declared value eight, from the point example. -/
def taskB : Task := { id := "t2", name := "B", points := 8 }

/-- Reference to the first example task, overriding its points to five. -/
def trefA : TaskRef := { id := "t1", points_override := some 5 }

/-- Reference to the second example task, without an override. -/
def trefB : TaskRef := { id := "t2" }

/-- Task store holding the two example tasks. -/
def storeAB : String → Option Task :=
  fun s => if s = "t1" then some taskA else if s = "t2" then some taskB else none

/-- School with a logo and no header fields. -/
def schoolW : School := { logo := "l.png" }

/-- School with a single student_name header field. -/
def schoolF : School :=
  { logo := "l.png",
    header_fields := [{ key := some "student_name", label := some "Name des Kindes", kind := some "text_line" }] }

/-- Exam referencing the two example tasks. -/
def examAB : Exam :=
  { id := "e1", title := "T", subject := "S", classLabel := "C", date := "D",
    school_id := "sch", tasks := [trefA, trefB] }

/-- Concrete layout-mode task with one role-free asset. -/
def taskL : Task :=
  { id := "tl", name := "L", points := 3, statement := "",
    render := some { mode := some "layout" },
    assets := [{ path := "plan.png" }] }

/-- Two to the 53, the first integer whose successor a binary64 float
cannot represent. -/
def pBig : ℚ := 9007199254740992

/-- Concrete task whose declared points are two to the 53. -/
def taskP1 : Task := { id := "p1", name := "P1", points := pBig }

/-- Concrete task whose declared points are one. -/
def taskP2 : Task := { id := "p2", name := "P2", points := 1 }

/-- Concrete task whose declared points are minus two to the 53. -/
def taskP3 : Task := { id := "p3", name := "P3", points := -pBig }

/-- Task store holding the three float-rounding example tasks. -/
def storeP : String → Option Task :=
  fun s => if s = "p1" then some taskP1 else if s = "p2" then some taskP2
    else if s = "p3" then some taskP3 else none

/-- Reference to the first float-rounding example task. -/
def refP1 : TaskRef := { id := "p1" }

/-- Reference to the second float-rounding example task. -/
def refP2 : TaskRef := { id := "p2" }

/-- Reference to the third float-rounding example task. -/
def refP3 : TaskRef := { id := "p3" }

lemma occ_unit (l : List Char) : occ lfPat (lfLine.data ++ l) = occ lfPat l + 1 := rfl

lemma occ_sep (l : List Char) : occ lfPat ('\n' :: l) = occ lfPat l := rfl

lemma data_append2 (a b : String) : (a ++ b).data = a.data ++ b.data := rfl

lemma count_join (m : Nat) :
    countLinefield (pyJoin "\n" (List.replicate m lfLine) ++ "\n") = m := by
  induction m with
  | zero => rfl
  | succ m ih =>
    cases m with
    | zero => rfl
    | succ m' =>
      have h1 : pyJoin "\n" (List.replicate (m' + 2) lfLine)
          = lfLine ++ "\n" ++ pyJoin "\n" (List.replicate (m' + 1) lfLine) := rfl
      rw [h1]
      unfold countLinefield at ih ⊢
      simp only [data_append2, List.append_assoc] at ih ⊢
      rw [occ_unit]
      have h2 : ("\n" : String).data ++
            ((pyJoin "\n" (List.replicate (m' + 1) lfLine)).data ++ ("\n" : String).data)
          = '\n' :: ((pyJoin "\n" (List.replicate (m' + 1) lfLine)).data ++ ("\n" : String).data) := rfl
      rw [h2, occ_sep, ih]

/-- C9: for every workspace block of type lines with count n greater or
equal zero, the rendered fragment contains exactly n ruled line fields,
and for n = 0 it is a single newline, blank after stripping whitespace. -/
theorem C9_lines_count (b : WorkspaceBlock) (n : Int)
    (ht : b.type = "lines") (hn : b.lines = some n) (h0 : 0 ≤ n) :
    ∃ s, render_workspace_block b = .ok s ∧ (countLinefield s : Int) = n ∧
      (n = 0 → s = "\n" ∧ pyStrip s = "") := by
  refine ⟨pyJoin "\n" (List.replicate n.toNat lfLine) ++ "\n", ?_, ?_, ?_⟩
  · simp [render_workspace_block, ht, hn]
  · rw [count_join]; exact Int.toNat_of_nonneg h0
  · intro h; subst h; exact ⟨by decide, by decide⟩

theorem C9_witness :
    ∃ s, render_workspace_block { type := "lines", lines := some 3 } = .ok s ∧
      (countLinefield s : Int) = 3 ∧ ((3 : Int) = 0 → s = "\n" ∧ pyStrip s = "") :=
  C9_lines_count { type := "lines", lines := some 3 } 3 rfl rfl (by decide)

/-- C10: a lines block with a negative count renders without error to a
fragment containing zero ruled line fields. -/
theorem C10_lines_negative (b : WorkspaceBlock) (n : Int)
    (ht : b.type = "lines") (hn : b.lines = some n) (h0 : n < 0) :
    render_workspace_block b = .ok "\n" ∧ countLinefield "\n" = 0 := by
  constructor
  · have h1 : n.toNat = 0 := Int.toNat_of_nonpos (le_of_lt h0)
    simp [render_workspace_block, ht, hn, h1]
    decide
  · rfl

theorem C10_witness :
    render_workspace_block { type := "lines", lines := some (-2) } = .ok "\n" ∧
      countLinefield "\n" = 0 :=
  C10_lines_negative { type := "lines", lines := some (-2) } (-2) rfl rfl (by decide)

/-- C3 counterexample: the spacing selector never changes the output,
a grid block renders exactly like a blank block of the same height with
no ruled squares, and grid and coord share the same default height. -/
theorem C3_counterexample :
    render_workspace_block { type := "grid", height_cm := some 4, spacing := some "coarse" } =
      render_workspace_block { type := "grid", height_cm := some 4 } ∧
    render_workspace_block { type := "grid", height_cm := some 4, spacing := some "mm" } =
      render_workspace_block { type := "grid", height_cm := some 4 } ∧
    render_workspace_block { type := "grid", height_cm := some 4 } =
      render_workspace_block { type := "blank", height_cm := some 4 } ∧
    render_workspace_block { type := "grid", height_cm := some 4 } = .ok "\\vspace\x7b4.0cm\x7d\n" ∧
    render_workspace_block { type := "grid" } = render_workspace_block { type := "coord" } :=
  ⟨rfl, rfl, rfl, rfl, rfl⟩

/-- C3 amended: grid and coord blocks are both rendered as vertical
space of the requested height with the same default of six centimeters,
the spacing selector being ignored. -/
theorem C3_grid_as_blank (b : WorkspaceBlock)
    (h : b.type = "grid" ∨ b.type = "coord") :
    render_workspace_block b =
      .ok ("\\vspace\x7b" ++ pyFloatStr (b.height_cm.getD 6) ++ "cm\x7d" ++ "\n") ∧
    (∀ sp, render_workspace_block { b with spacing := sp } = render_workspace_block b) ∧
    render_workspace_block b =
      render_workspace_block { type := "blank", height_cm := some (b.height_cm.getD 6) } := by
  rcases h with h | h <;>
    refine ⟨?_, fun sp => ?_, ?_⟩ <;>
    simp [render_workspace_block, h]

theorem C3_witness :
    render_workspace_block { type := "coord" } =
      .ok ("\\vspace\x7b" ++ pyFloatStr ((none : Option ℚ).getD 6) ++ "cm\x7d" ++ "\n") ∧
    (∀ sp, render_workspace_block { type := "coord", spacing := sp } =
      render_workspace_block { type := "coord" }) ∧
    render_workspace_block { type := "coord" } =
      render_workspace_block { type := "blank", height_cm := some ((none : Option ℚ).getD 6) } :=
  C3_grid_as_blank { type := "coord" } (Or.inr rfl)

/-- C7 counterexample: a box whose title is a single space is blank
after stripping, yet the renderer still prefixes the bold label, so the
output differs from the untitled box. -/
theorem C7_counterexample :
    render_workspace_block { type := "box", height_cm := some 2, box_title := some " " } =
      .ok "\\textbf\x7b \x7d\\par\\vspace\x7b2pt\x7d\\fbox\x7b\\parbox[t][2.0cm][t]\x7b\\linewidth\x7d\x7b\x7d\x7d\\n" ∧
    pyStrip " " = "" ∧
    render_workspace_block { type := "box", height_cm := some 2, box_title := some " " } ≠
      render_workspace_block { type := "box", height_cm := some 2 } := by
  refine ⟨by decide, by decide, ?_⟩
  decide

/-- C7 amended: the rendered box fragment begins with the bold label if
and only if the title string is present and non-empty after newline
normalization, with no whitespace stripping. -/
theorem C7_box_label (b : WorkspaceBlock) (h : ℚ) (ht : b.type = "box")
    (hh : b.height_cm = some h) :
    ∃ s, render_workspace_block b = .ok s ∧
      (leadsWith "\\textbf".data s.data = true ↔ tex_escape_minimal (b.box_title.getD "") ≠ "") := by
  by_cases hc : tex_escape_minimal (b.box_title.getD "") = ""
  · refine ⟨"\\fbox\x7b\\parbox[t][" ++ pyFloatStr h ++ "cm][t]\x7b\\linewidth\x7d\x7b\x7d\x7d\\n", ?_, ?_⟩
    · simp [render_workspace_block, ht, hh, hc]
    · have hfalse : leadsWith "\\textbf".data
          (("\\fbox\x7b\\parbox[t][" ++ pyFloatStr h ++ "cm][t]\x7b\\linewidth\x7d\x7b\x7d\x7d\\n").data) = false := rfl
      rw [hfalse]
      simp [hc]
  · refine ⟨"\\textbf\x7b" ++ tex_escape_minimal (b.box_title.getD "") ++
      "\x7d\\par\\vspace\x7b2pt\x7d\\fbox\x7b\\parbox[t][" ++ pyFloatStr h ++
      "cm][t]\x7b\\linewidth\x7d\x7b\x7d\x7d\\n", ?_, ?_⟩
    · simp [render_workspace_block, ht, hh, hc]
    · have htrue : leadsWith "\\textbf".data
          (("\\textbf\x7b" ++ tex_escape_minimal (b.box_title.getD "") ++
            "\x7d\\par\\vspace\x7b2pt\x7d\\fbox\x7b\\parbox[t][" ++ pyFloatStr h ++
            "cm][t]\x7b\\linewidth\x7d\x7b\x7d\x7d\\n").data) = true := rfl
      rw [htrue]
      simp [hc]

theorem C7_witness :
    ∃ s, render_workspace_block { type := "box", height_cm := some 2, box_title := some "Titel" } = .ok s ∧
      (leadsWith "\\textbf".data s.data = true ↔
        tex_escape_minimal ((some "Titel" : Option String).getD "") ≠ "") :=
  C7_box_label { type := "box", height_cm := some 2, box_title := some "Titel" } 2 rfl rfl

/-- C5: the asset resolver returns an absolute path unchanged, else the
root-joined path whenever it exists on the filesystem regardless of the
base-joined path, else the base-joined path unconditionally. -/
theorem C5_resolve_asset_path (fsEx : String → Bool) (root base p : String) :
    (isAbsolute p = true → resolve_asset_path fsEx root base p = p) ∧
    (isAbsolute p = false → fsEx (joinPath root p) = true →
      resolve_asset_path fsEx root base p = joinPath root p) ∧
    (isAbsolute p = false → fsEx (joinPath root p) = false →
      resolve_asset_path fsEx root base p = joinPath base p) := by
  refine ⟨fun h1 => ?_, fun h1 h2 => ?_, fun h1 h2 => ?_⟩ <;>
    simp [resolve_asset_path, h1] <;> simp [h2]

theorem C5_witness :
    isAbsolute "/abs/logo.png" = true ∧
    resolve_asset_path (fun _ => true) "root" "base" "/abs/logo.png" = "/abs/logo.png" ∧
    isAbsolute "img.png" = false ∧
    resolve_asset_path (fun _ => true) "root" "base" "img.png" = joinPath "root" "img.png" ∧
    resolve_asset_path (fun _ => false) "root" "base" "img.png" = joinPath "base" "img.png" :=
  ⟨rfl, (C5_resolve_asset_path (fun _ => true) "root" "base" "/abs/logo.png").1 rfl, rfl,
    (C5_resolve_asset_path (fun _ => true) "root" "base" "img.png").2.1 rfl rfl,
    (C5_resolve_asset_path (fun _ => false) "root" "base" "img.png").2.2 rfl rfl⟩

/-- C4: in layout mode an empty asset list is a fatal no-layout-asset
error; otherwise the asset with role layout, or failing that the first
declared asset, is used, and the successful output is exactly the
heading, the statement and one centered image, independent of the parts
and workspace of the task. -/
theorem C4_layout_mode (fsEx : String → Bool) (root dir : String) (task : Task) (i : Nat)
    (hmode : renderMode task = "layout") :
    (task.assets = [] →
      render_task fsEx root dir task i =
        .error ("Task " ++ task.id ++ " is render.mode=layout but has no assets.")) ∧
    (∀ a, task.assets.find? (fun x => x.role == some "layout") = some a →
      usedLayoutAsset task = some a) ∧
    (task.assets.find? (fun x => x.role == some "layout") = none →
      ∀ a0 t, task.assets = a0 :: t → usedLayoutAsset task = some a0) ∧
    (∀ a, usedLayoutAsset task = some a →
      fsEx (resolve_asset_path fsEx root dir a.path) = true →
      render_task fsEx root dir task i =
        .ok (pyJoin "\n" [headingStr i (tex_escape_minimal task.name) task.points,
          tex_escape_minimal task.statement ++ "\n",
          centerImage (a.width.getD "\\linewidth") (resolve_asset_path fsEx root dir a.path), "\n"]) ∧
      render_task fsEx root dir task i =
        render_task fsEx root dir { task with parts := [], workspace := [] } i) := by
  refine ⟨?_, ?_, ?_, ?_⟩
  · intro hempty
    have hu : usedLayoutAsset task = none := by
      simp [usedLayoutAsset, hempty]
    simp [render_task, render_task_items, hmode, hu]
  · intro a hf
    simp [usedLayoutAsset, hf]
  · intro hn a0 t he
    rw [he] at hn
    simp [usedLayoutAsset, he, hn]
  · intro a ha hex
    have hmode2 : renderMode { task with parts := ([] : List Part), workspace := ([] : List WorkspaceBlock) } = "layout" := hmode
    have ha2 : usedLayoutAsset { task with parts := ([] : List Part), workspace := ([] : List WorkspaceBlock) } = some a := ha
    constructor
    · simp [render_task, render_task_items, hmode, ha, hex]
    · simp [render_task, render_task_items, hmode, hmode2, ha, ha2, hex]

theorem C4_witness :
    render_task fsAll "." "tasks/tl" taskL 1 =
      .ok (pyJoin "\n" [headingStr 1 (tex_escape_minimal taskL.name) taskL.points,
        tex_escape_minimal taskL.statement ++ "\n",
        centerImage ((none : Option String).getD "\\linewidth")
          (resolve_asset_path fsAll "." "tasks/tl" "plan.png"), "\n"]) ∧
    render_task fsAll "." "tasks/tl" taskL 1 =
      render_task fsAll "." "tasks/tl" { taskL with parts := [], workspace := [] } 1 :=
  (C4_layout_mode fsAll "." "tasks/tl" taskL 1 rfl).2.2.2
    { path := "plan.png" } rfl rfl


end BuildExam

namespace BuildExam

lemma pyJoin_cons_cons (sep a b : String) (l : List String) :
    pyJoin sep (a :: b :: l) = a ++ sep ++ pyJoin sep (b :: l) := rfl

lemma render_task_items_shape {fsEx : String → Bool} {root dir : String} {task : Task}
    {i : Nat} {items : List String}
    (h : render_task_items fsEx root dir task i = .ok items) :
    ∃ t, items = headingStr i (tex_escape_minimal task.name) task.points ::
      (tex_escape_minimal task.statement ++ "\n") :: t := by
  unfold render_task_items at h
  split at h
  · split at h
    · cases h
    · split at h
      · exact ⟨_, (Except.ok.inj h).symm⟩
      · cases h
  · split at h
    · cases h
    · split at h
      · cases h
      · split at h
        · cases h
        · exact ⟨_, (Except.ok.inj h).symm⟩

lemma render_task_ok_shape {fsEx : String → Bool} {root dir : String} {task : Task}
    {i : Nat} {s : String}
    (h : render_task fsEx root dir task i = .ok s) :
    ∃ r, s = headingStr i (tex_escape_minimal task.name) task.points ++ "\n" ++ r := by
  unfold render_task at h
  split at h
  · cases h
  · obtain ⟨t, ht⟩ := render_task_items_shape (by assumption)
    subst ht
    exact ⟨_, ((Except.ok.inj h).symm).trans (pyJoin_cons_cons _ _ _ _)⟩

lemma render_tasks_go_cons_ok {fsEx : String → Bool} {root : String} {store : String → Option Task}
    {tref : TaskRef} {rest : List TaskRef} {i : Nat} {acc : ℚ} {out : List String} {total : ℚ}
    (h : render_tasks_go fsEx root store (tref :: rest) i acc = .ok (out, total)) :
    ∃ task frag tail,
      store tref.id = some task ∧
      render_task fsEx root (taskDir root tref.id) (withEff tref task) i = .ok frag ∧
      render_tasks_go fsEx root store rest (i + 1)
        (fadd64 acc (tref.points_override.getD task.points)) = .ok (tail, total) ∧
      out = (if pageBreakReq tref (withEff tref task) then ["\\newpage"] else []) ++ frag :: tail := by
  unfold render_tasks_go at h
  split at h
  · cases h
  · split at h
    · cases h
    · split at h
      · cases h
      · have hp := Except.ok.inj h
        injection hp with h1 h2
        subst h1
        subst h2
        exact ⟨_, _, _, by assumption, by assumption, by assumption, rfl⟩

lemma render_tasks_go_total {fsEx : String → Bool} {root : String} {store : String → Option Task} :
    ∀ (trefs : List TaskRef) (i : Nat) (acc : ℚ) (out : List String) (total : ℚ),
      render_tasks_go fsEx root store trefs i acc = .ok (out, total) →
      total = (trefs.map (effPoints store)).foldl fadd64 acc := by
  intro trefs
  induction trefs with
  | nil =>
    intro i acc out total h
    unfold render_tasks_go at h
    have hp := Except.ok.inj h
    have h2 : total = acc := ((congrArg Prod.snd hp)).symm
    rw [h2]
    simp
  | cons tref rest ih =>
    intro i acc out total h
    obtain ⟨task, frag, tail, hstore, hfrag, htail, hout⟩ := render_tasks_go_cons_ok h
    rw [List.map_cons, List.foldl_cons]
    have he : effPoints store tref = tref.points_override.getD task.points := by
      unfold effPoints; rw [hstore]
    rw [he]
    exact ih _ _ _ _ htail

lemma render_tasks_total {fsEx : String → Bool} {root : String} {store : String → Option Task} :
    ∀ (trefs : List TaskRef) (i : Nat) (out : List String) (total : ℚ),
      render_tasks fsEx root store trefs i = .ok (out, total) →
      total = (trefs.map (effPoints store)).foldl fadd64 0 := by
  intro trefs i out total h
  exact render_tasks_go_total trefs i 0 out total h

end BuildExam

namespace BuildExam

lemma render_tasks_go_frags {fsEx : String → Bool} {root : String} {store : String → Option Task} :
    ∀ (trefs : List TaskRef) (i : Nat) (acc : ℚ) (out : List String) (total : ℚ),
      render_tasks_go fsEx root store trefs i acc = .ok (out, total) →
      ∃ frags : List String,
        frags.length = trefs.length ∧
        out = (List.zipWith (fun tr frag =>
          (if (match store tr.id with
               | some t => pageBreakReq tr (withEff tr t)
               | none => false) then ["\\newpage"] else []) ++ [frag]) trefs frags).flatten ∧
        ∀ k, k < trefs.length → ∃ tr task frag,
          trefs[k]? = some tr ∧
          store tr.id = some task ∧
          frags[k]? = some frag ∧
          render_task fsEx root (taskDir root tr.id) (withEff tr task) (i + k) = .ok frag := by
  intro trefs
  induction trefs with
  | nil =>
    intro i acc out total h
    unfold render_tasks_go at h
    have hp := Except.ok.inj h
    have h2 : out = [] := ((congrArg Prod.fst hp)).symm
    exact ⟨[], rfl, by simp [h2], fun k hk => absurd hk (by simp)⟩
  | cons tref rest ih =>
    intro i acc out total h
    obtain ⟨task, frag, tail, hstore, hfrag, htail, hout⟩ := render_tasks_go_cons_ok h
    obtain ⟨frags, hlen, htails, hidx⟩ := ih (i + 1) _ tail total htail
    refine ⟨frag :: frags, by simp [hlen], ?_, ?_⟩
    · rw [hout, htails]
      simp only [List.zipWith_cons_cons, List.flatten_cons]
      rw [hstore]
      simp [List.append_assoc]
    · intro k hk
      cases k with
      | zero =>
        refine ⟨tref, task, frag, by simp, hstore, by simp, ?_⟩
        simpa using hfrag
      | succ q =>
        obtain ⟨tr, task2, frag2, h1, h2, h3, h4⟩ :=
          hidx q (by simpa using Nat.lt_of_succ_lt_succ hk)
        refine ⟨tr, task2, frag2, by simpa using h1, h2, by simpa using h3, ?_⟩
        have h5 : i + (q + 1) = (i + 1) + q := by omega
        rw [h5]
        exact h4

lemma render_tasks_frags {fsEx : String → Bool} {root : String} {store : String → Option Task} :
    ∀ (trefs : List TaskRef) (i : Nat) (out : List String) (total : ℚ),
      render_tasks fsEx root store trefs i = .ok (out, total) →
      ∃ frags : List String,
        frags.length = trefs.length ∧
        out = (List.zipWith (fun tr frag =>
          (if (match store tr.id with
               | some t => pageBreakReq tr (withEff tr t)
               | none => false) then ["\\newpage"] else []) ++ [frag]) trefs frags).flatten ∧
        ∀ k, k < trefs.length → ∃ tr task frag,
          trefs[k]? = some tr ∧
          store tr.id = some task ∧
          frags[k]? = some frag ∧
          render_task fsEx root (taskDir root tr.id) (withEff tr task) (i + k) = .ok frag := by
  intro trefs i out total h
  exact render_tasks_go_frags trefs i 0 out total h

/-- C1: the point value interpolated into the heading of a rendered task
fragment is the override of the task reference when present and the
declared point value of the task otherwise. -/
theorem C1_points_override (fsEx : String → Bool) (root : String) (store : String → Option Task)
    (tref : TaskRef) (rest : List TaskRef) (i : Nat) (out : List String) (total : ℚ) (task : Task)
    (hstore : store tref.id = some task)
    (hok : render_tasks fsEx root store (tref :: rest) i = .ok (out, total)) :
    ∃ r, (headingStr i (tex_escape_minimal task.name)
        (tref.points_override.getD task.points) ++ "\n" ++ r) ∈ out ∧
      (∀ o, tref.points_override = some o → tref.points_override.getD task.points = o) ∧
      (tref.points_override = none → tref.points_override.getD task.points = task.points) := by
  obtain ⟨task2, frag, tail, hstore2, hfrag, htail, hout⟩ := render_tasks_go_cons_ok hok
  rw [hstore] at hstore2
  obtain rfl : task = task2 := Option.some.inj hstore2
  obtain ⟨r, hr⟩ := render_task_ok_shape hfrag
  have hname : (withEff tref task).name = task.name := rfl
  have hpts : (withEff tref task).points = tref.points_override.getD task.points := rfl
  rw [hname, hpts] at hr
  refine ⟨r, ?_, fun o ho => by rw [ho]; rfl, fun hn => by rw [hn]; rfl⟩
  rw [hout, ← hr]
  exact List.mem_append_right _ (List.mem_cons_self _ _)

theorem C1_witness :
    ∃ r, (headingStr 1 (tex_escape_minimal taskA.name)
        (trefA.points_override.getD taskA.points) ++ "\n" ++ r) ∈
        ((render_tasks fsAll "." storeAB [trefA, trefB] 1).toOption.getD ([], 0)).1 ∧
      (∀ o, trefA.points_override = some o → trefA.points_override.getD taskA.points = o) ∧
      (trefA.points_override = none → trefA.points_override.getD taskA.points = taskA.points) :=
  C1_points_override fsAll "." storeAB trefA [trefB] 1
    ((render_tasks fsAll "." storeAB [trefA, trefB] 1).toOption.getD ([], 0)).1
    ((render_tasks fsAll "." storeAB [trefA, trefB] 1).toOption.getD ([], 0)).2
    taskA rfl rfl

end BuildExam

namespace BuildExam

/-- C2 amended: the aggregate total is the exact sum of the effective
per-task point values, invariant under any reordering of that list of
values, and the end-of-document line renders the total as a Python
float, so an integral total is displayed with a trailing .0 rather than
as a bare integer. -/
theorem C2_total_points (fsEx : String → Bool) (root : String) (exam : Exam) (school : School)
    (store : String → Option Task) (parts : List String)
    (hdoc : buildDocument fsEx root exam school store = .ok parts) :
    ∃ hdr out total,
      render_header fsEx root exam school = .ok hdr ∧
      render_tasks fsEx root store exam.tasks 1 = .ok (out, total) ∧
      parts = [latex_preamble, hdr] ++ out ++ [totalLine total, latex_end] ∧
      total = (exam.tasks.map (effPoints store)).foldl fadd64 0 ∧
      (total.den = 1 → totalLine total =
        "\\par\\textbf\x7bGesamtpunkte:\x7d " ++ (toString total.num ++ ".0") ++ "\\par") := by
  unfold buildDocument at hdoc
  rcases hh : render_header fsEx root exam school with e | hdr
  · rw [hh] at hdoc; cases hdoc
  · rw [hh] at hdoc
    rcases ht : render_tasks fsEx root store exam.tasks 1 with e | p
    · rw [ht] at hdoc; cases hdoc
    · obtain ⟨out, total⟩ := p
      rw [ht] at hdoc
      have hp := (Except.ok.inj hdoc).symm
      have hsum := render_tasks_total exam.tasks 1 out total ht
      refine ⟨hdr, out, total, rfl, rfl, hp, hsum, fun hd => ?_⟩
      unfold totalLine pyFloatStr
      rw [if_pos hd]

theorem C2_witness :
    ∃ hdr out total,
      render_header fsAll "." examAB schoolW = .ok hdr ∧
      render_tasks fsAll "." storeAB examAB.tasks 1 = .ok (out, total) ∧
      (buildDocument fsAll "." examAB schoolW storeAB).toOption.getD [] =
        [latex_preamble, hdr] ++ out ++ [totalLine total, latex_end] ∧
      total = (examAB.tasks.map (effPoints storeAB)).foldl fadd64 0 ∧
      (total.den = 1 → totalLine total =
        "\\par\\textbf\x7bGesamtpunkte:\x7d " ++ (toString total.num ++ ".0") ++ "\\par") :=
  C2_total_points fsAll "." examAB schoolW storeAB
    ((buildDocument fsAll "." examAB schoolW storeAB).toOption.getD []) rfl

/-- C2 counterexample: in the two-task example the first heading
interpolates 5.0 and the second 8.0, and the total line displays 13.0,
not the bare integer 13 nor the headings /5 and /8 the claim states;
moreover the float accumulation is neither the exact sum nor
order-independent: with point values two to the 53, one and minus two
to the 53, the reference order p1 p2 p3 totals zero while the permuted
order p1 p3 p2 totals one, and the binary64 sum of two to the 53 and
one is two to the 53 again rather than the exact sum. -/
theorem C2_counterexample :
    (∃ out total, render_tasks fsAll "." storeAB [trefA, trefB] 1 = .ok (out, total) ∧
      out = ["\\tasktitle\x7bAufgabe 1: A\x7d\x7b5.0\x7d\n\n\n\\vspace\x7b6pt\x7d\\hrule\\vspace\x7b6pt\x7d",
             "\\tasktitle\x7bAufgabe 2: B\x7d\x7b8.0\x7d\n\n\n\\vspace\x7b6pt\x7d\\hrule\\vspace\x7b6pt\x7d"] ∧
      total = 13) ∧
    taskA.points = 10 ∧ trefA.points_override = some 5 ∧
    taskB.points = 8 ∧ trefB.points_override = none ∧
    totalLine 13 = "\\par\\textbf\x7bGesamtpunkte:\x7d 13.0\\par" ∧
    totalLine 13 ≠ "\\par\\textbf\x7bGesamtpunkte:\x7d 13\\par" ∧
    pyFloatStr 5 = "5.0" ∧ ("5.0" : String) ≠ "5" ∧
    pyFloatStr 8 = "8.0" ∧ ("8.0" : String) ≠ "8" ∧
    (∃ o1 t1, render_tasks fsAll "." storeP [refP1, refP2, refP3] 1 = .ok (o1, t1) ∧ t1 = 0) ∧
    (∃ o2 t2, render_tasks fsAll "." storeP [refP1, refP3, refP2] 1 = .ok (o2, t2) ∧ t2 = 1) ∧
    ([refP1, refP2, refP3].map (effPoints storeP)).Perm
      ([refP1, refP3, refP2].map (effPoints storeP)) ∧
    (0 : ℚ) ≠ 1 ∧
    ([refP1, refP2, refP3].map (effPoints storeP)).sum = 1 ∧
    fadd64 pBig 1 = pBig ∧ pBig + 1 ≠ pBig := by
  have c05 : fadd64core 0 5 = (5, 0) := by decide
  have c58 : fadd64core 5 8 = (13, 0) := by decide
  have c0B : fadd64core 0 (9007199254740992 : ℚ) = (4503599627370496, 1) := by decide
  have cB1 : fadd64core (9007199254740992 : ℚ) 1 = (4503599627370496, 1) := by decide
  have cBm : fadd64core (9007199254740992 : ℚ) (-(9007199254740992 : ℚ)) = (0, 0) := by decide
  have c01 : fadd64core 0 1 = (1, 0) := by decide
  have h05 : fadd64 0 5 = 5 := by
    simp only [fadd64, c05]; norm_num
  have h58 : fadd64 5 8 = 13 := by
    simp only [fadd64, c58]; norm_num
  have h0B : fadd64 0 pBig = pBig := by
    simp only [fadd64, pBig, c0B]; norm_num
  have hB1 : fadd64 pBig 1 = pBig := by
    simp only [fadd64, pBig, cB1]; norm_num
  have hBm : fadd64 pBig (-pBig) = 0 := by
    simp only [fadd64, pBig, cBm]; norm_num
  have h01 : fadd64 0 1 = 1 := by
    simp only [fadd64, c01]; norm_num
  refine ⟨⟨_, _, rfl, by decide, ?_⟩, by decide, by decide, by decide, by decide, by decide,
    by decide, by decide, by decide, by decide, by decide, ⟨_, _, rfl, ?_⟩, ⟨_, _, rfl, ?_⟩,
    ?_, by norm_num, ?_, hB1, by norm_num [pBig]⟩
  · show fadd64 (fadd64 0 (trefA.points_override.getD taskA.points))
      (trefB.points_override.getD taskB.points) = 13
    simp only [trefA, trefB, taskA, taskB, Option.getD_some, Option.getD_none]
    rw [h05, h58]
  · show fadd64 (fadd64 (fadd64 0 (refP1.points_override.getD taskP1.points))
        (refP2.points_override.getD taskP2.points))
      (refP3.points_override.getD taskP3.points) = 0
    simp only [refP1, refP2, refP3, taskP1, taskP2, taskP3, Option.getD_none]
    rw [h0B, hB1, hBm]
  · show fadd64 (fadd64 (fadd64 0 (refP1.points_override.getD taskP1.points))
        (refP3.points_override.getD taskP3.points))
      (refP2.points_override.getD taskP2.points) = 1
    simp only [refP1, refP2, refP3, taskP1, taskP2, taskP3, Option.getD_none]
    rw [h0B, hBm, h01]
  · show ([pBig, (1 : ℚ), -pBig]).Perm ([pBig, -pBig, (1 : ℚ)])
    exact List.Perm.cons pBig (List.Perm.swap (-pBig) 1 [])
  · show ([pBig, (1 : ℚ), -pBig]).sum = 1
    simp [pBig]

/-- C6: a successfully assembled document is the preamble, the header,
the task fragments in exactly the reference order each preceded by a
newpage directive precisely when the reference or the render
configuration of the task requests one, the total line and the closing
marker. -/
theorem C6_document_order (fsEx : String → Bool) (root : String) (exam : Exam) (school : School)
    (store : String → Option Task) (parts : List String)
    (hdoc : buildDocument fsEx root exam school store = .ok parts) :
    ∃ hdr out total frags,
      render_header fsEx root exam school = .ok hdr ∧
      render_tasks fsEx root store exam.tasks 1 = .ok (out, total) ∧
      parts = [latex_preamble, hdr] ++ out ++ [totalLine total, latex_end] ∧
      frags.length = exam.tasks.length ∧
      out = (List.zipWith (fun tr frag =>
        (if (match store tr.id with
             | some t => pageBreakReq tr (withEff tr t)
             | none => false) then ["\\newpage"] else []) ++ [frag]) exam.tasks frags).flatten ∧
      (∀ k, k < exam.tasks.length → ∃ tr task frag,
        exam.tasks[k]? = some tr ∧
        store tr.id = some task ∧
        frags[k]? = some frag ∧
        render_task fsEx root (taskDir root tr.id) (withEff tr task) (1 + k) = .ok frag) := by
  unfold buildDocument at hdoc
  rcases hh : render_header fsEx root exam school with e | hdr
  · rw [hh] at hdoc; cases hdoc
  · rw [hh] at hdoc
    rcases ht : render_tasks fsEx root store exam.tasks 1 with e | p
    · rw [ht] at hdoc; cases hdoc
    · obtain ⟨out, total⟩ := p
      rw [ht] at hdoc
      have hp := (Except.ok.inj hdoc).symm
      obtain ⟨frags, hlen, hflat, hidx⟩ := render_tasks_frags exam.tasks 1 out total ht
      exact ⟨hdr, out, total, frags, rfl, rfl, hp, hlen, hflat, hidx⟩

theorem C6_witness :
    ∃ hdr out total frags,
      render_header fsAll "." examAB schoolW = .ok hdr ∧
      render_tasks fsAll "." storeAB examAB.tasks 1 = .ok (out, total) ∧
      (buildDocument fsAll "." examAB schoolW storeAB).toOption.getD [] =
        [latex_preamble, hdr] ++ out ++ [totalLine total, latex_end] ∧
      frags.length = examAB.tasks.length ∧
      out = (List.zipWith (fun tr frag =>
        (if (match storeAB tr.id with
             | some t => pageBreakReq tr (withEff tr t)
             | none => false) then ["\\newpage"] else []) ++ [frag]) examAB.tasks frags).flatten ∧
      (∀ k, k < examAB.tasks.length → ∃ tr task frag,
        examAB.tasks[k]? = some tr ∧
        storeAB tr.id = some task ∧
        frags[k]? = some frag ∧
        render_task fsAll "." (taskDir "." tr.id) (withEff tr task) (1 + k) = .ok frag) :=
  C6_document_order fsAll "." examAB schoolW storeAB
    ((buildDocument fsAll "." examAB schoolW storeAB).toOption.getD []) rfl

end BuildExam

namespace BuildExam

/-- C8: a successfully rendered header starts with the fixed
title-subject-date row; the second row of three labeled line fields is
present exactly when one of the keys student_name, class or note is
declared, its labels taken from the declared fields or the defaults; a
school with no header fields yields the fixed row alone; and the header
string embeds exactly this row list. -/
theorem C8_header_rows (exam : Exam) (school : School) (rows : List String)
    (hrows : header_rows exam school = .ok rows) :
    ∃ second,
      rows = fixedRow exam ::
        (second ++ extraRowsOf school.header_fields ++ checkboxRowsOf school.header_fields) ∧
      (second = [] ↔ secondRowWanted school.header_fields = false) ∧
      (secondRowWanted school.header_fields = true ↔
        ((findField school.header_fields "student_name").isSome = true ∨
          (findField school.header_fields "class").isSome = true ∨
          (findField school.header_fields "note").isSome = true)) ∧
      (∀ sl cl nl,
        fieldLabel (findField school.header_fields "student_name") "Name" = .ok sl →
        fieldLabel (findField school.header_fields "class") "Klasse" = .ok cl →
        fieldLabel (findField school.header_fields "note") "Nr./Note" = .ok nl →
        secondRowWanted school.header_fields = true →
        second = [secondRowStr sl cl nl]) ∧
      (school.header_fields = [] → rows = [fixedRow exam]) ∧
      (∀ fsEx root s, render_header fsEx root exam school = .ok s →
        fsEx (resolve_asset_path fsEx root root school.logo) = true ∧
        s = headerString (resolve_asset_path fsEx root root school.logo) rows) := by
  have hrows0 := hrows
  unfold header_rows at hrows
  rcases hs : secondRowOf school.header_fields with e | row1
  · rw [hs] at hrows; cases hrows
  · rw [hs] at hrows
    have hr : rows = [fixedRow exam] ++ row1 ++ extraRowsOf school.header_fields ++
        checkboxRowsOf school.header_fields := (Except.ok.inj hrows).symm
    refine ⟨row1, by simpa [List.append_assoc] using hr, ?_, ?_, ?_, ?_, ?_⟩
    · by_cases hw : secondRowWanted school.header_fields
      · unfold secondRowOf at hs
        rw [if_pos hw] at hs
        rcases h1 : fieldLabel (findField school.header_fields "student_name") "Name" with e1 | sl
        · rw [h1] at hs; cases hs
        · rw [h1] at hs
          rcases h2 : fieldLabel (findField school.header_fields "class") "Klasse" with e2 | cl
          · rw [h2] at hs; cases hs
          · rw [h2] at hs
            rcases h3 : fieldLabel (findField school.header_fields "note") "Nr./Note" with e3 | nl
            · rw [h3] at hs; cases hs
            · rw [h3] at hs
              have : row1 = [secondRowStr sl cl nl] := (Except.ok.inj hs).symm
              subst this
              simp [hw]
      · unfold secondRowOf at hs
        rw [if_neg hw] at hs
        have : row1 = [] := (Except.ok.inj hs).symm
        subst this
        simp [hw]
    · simp [secondRowWanted, Bool.or_eq_true]
      tauto
    · intro sl cl nl h1 h2 h3 hw
      unfold secondRowOf at hs
      rw [if_pos hw, h1, h2, h3] at hs
      exact (Except.ok.inj hs).symm
    · intro hf
      rw [hf] at hs
      have : row1 = [] := (Except.ok.inj hs).symm
      subst this
      rw [hr, hf]
      simp [extraRowsOf, checkboxRowsOf]
    · intro fsEx root s hhead
      unfold render_header at hhead
      by_cases hfs : fsEx (resolve_asset_path fsEx root root school.logo) = true
      · rw [if_pos hfs, hrows0] at hhead
        exact ⟨hfs, (Except.ok.inj hhead).symm⟩
      · rw [if_neg hfs] at hhead
        cases hhead

theorem C8_witness :
    ∃ second,
      ((header_rows examAB schoolF).toOption.getD []) = fixedRow examAB ::
        (second ++ extraRowsOf schoolF.header_fields ++ checkboxRowsOf schoolF.header_fields) ∧
      (second = [] ↔ secondRowWanted schoolF.header_fields = false) ∧
      (secondRowWanted schoolF.header_fields = true ↔
        ((findField schoolF.header_fields "student_name").isSome = true ∨
          (findField schoolF.header_fields "class").isSome = true ∨
          (findField schoolF.header_fields "note").isSome = true)) ∧
      (∀ sl cl nl,
        fieldLabel (findField schoolF.header_fields "student_name") "Name" = .ok sl →
        fieldLabel (findField schoolF.header_fields "class") "Klasse" = .ok cl →
        fieldLabel (findField schoolF.header_fields "note") "Nr./Note" = .ok nl →
        secondRowWanted schoolF.header_fields = true →
        second = [secondRowStr sl cl nl]) ∧
      (schoolF.header_fields = [] → ((header_rows examAB schoolF).toOption.getD []) = [fixedRow examAB]) ∧
      (∀ fsEx root s, render_header fsEx root examAB schoolF = .ok s →
        fsEx (resolve_asset_path fsEx root root schoolF.logo) = true ∧
        s = headerString (resolve_asset_path fsEx root root schoolF.logo)
          ((header_rows examAB schoolF).toOption.getD [])) :=
  C8_header_rows examAB schoolF ((header_rows examAB schoolF).toOption.getD []) rfl

end BuildExam
